import Mathlib

/-!
Verification of the identity-schema resolution engine of the k8s workload
registrar (CRD mode): a shallow embedding of
`support/k8s/k8s-workload-registrar/mode-crd/controllers/identity_schema.go`
together with theorems about identity rendering (`getSVID`), per-field
resolution (`getFieldValue`, `AttestorSource.GetValue`,
`ConfigMapSource.GetValue`, `getValueFromWorkloadAttestor`,
`getValueFromK8s`) and selector construction (`getSelector`).

Go conventions mirrored here:
* a Go `(value, err)` pair becomes `String × Option String` (the `Option`
  is `some msg` exactly when `err != nil`);
* a nil slice is distinguished from an empty slice by `Option (List _)`
  (`none` models the nil slice, `some []` the empty non-nil slice);
* a nil `map[string]string` is `none`; lookup of a missing key yields `""`
  as in Go.
-/

namespace Spire

/-- Pod attribute view: the fields of `corev1.Pod` read by the resolver
(`pod.Name`, `pod.Namespace`, `pod.UID`, `pod.Spec.ServiceAccountName`,
`pod.Spec.NodeName`), flattened into one record. -/
structure Pod where
  Name : String
  Namespace : String
  UID : String
  ServiceAccountName : String
  NodeName : String
deriving DecidableEq, Repr

/-- One attestor mapping entry (`Mapping` in the Go source); `typ` embeds
the Go field `Type` (a Lean keyword) and `field` the Go field `Field`. -/
structure Mapping where
  typ : String
  field : String
deriving DecidableEq, Repr

/-- `AttestorSource` from the Go source. -/
structure AttestorSource where
  Name : String
  Group : String
  Mappings : List Mapping
deriving DecidableEq, Repr

/-- `ConfigMapSource` from the Go source. -/
structure ConfigMapSource where
  Name : String
  Namespace : String
  Field : String
deriving DecidableEq, Repr

/-- `Field` from the Go source: optional literal `Value` (Go zero value
`""` means unset) and optional pointers to the two source kinds. -/
structure Field where
  Name : String
  Value : String
  AttestorSource : Option AttestorSource
  ConfigMapSource : Option ConfigMapSource
deriving DecidableEq, Repr

/-- `IdentitySchema` from the Go source; `Fields = none` models a nil Go
slice (schema file absent or without a `fields` entry), `some l` a
non-nil slice. -/
structure IdentitySchema where
  Version : String
  Fields : Option (List Field)
deriving DecidableEq, Repr

/-- `spiffeidv1beta1.Selector`: sparse record, Go zero value `""` means
the key is unset. -/
structure Selector where
  Namespace : String
  PodUid : String
  PodName : String
  ServiceAccount : String
  NodeName : String
deriving DecidableEq, Repr

/-- `corev1.ConfigMap`, restricted to the parts the resolver reads:
name, namespace and the `Data` string map (`none` models a nil map). -/
structure ConfigMap where
  Name : String
  Namespace : String
  Data : Option (List (String × String))
deriving DecidableEq, Repr

/-- The `client.Client` capability used by `ConfigMapSource.GetValue`:
a store of config maps plus a flag modelling a failing `List` call. -/
structure CMClient where
  configMaps : List ConfigMap
  listFails : Bool
deriving DecidableEq, Repr

/-- `cl.List(ctx, &cmlist, &ListOptions{Namespace: ns})`: returns the
config maps of namespace `ns`, or an error when the call fails. -/
def CMClient.listNS (cl : CMClient) (ns : String) : Except Unit (List ConfigMap) :=
  if cl.listFails then Except.error ()
  else Except.ok (cl.configMaps.filter (fun cm => cm.Namespace == ns))

/-- Go map lookup `data[key]`: value of the first matching key, `""` when
absent. -/
def lookupData (data : List (String × String)) (key : String) : String :=
  match data.find? (fun kv => kv.1 == key) with
  | some kv => kv.2
  | none => ""

def nodeAttestor : String := "nodeAttestor"

def workloadAttestor : String := "workloadAttestor"

def namespaceLabel : String := "Namespace"

def podUIDLabel : String := "PodUID"

def podNameLabel : String := "PodName"

def serviceAccountLabel : String := "ServiceAccount"

/-- `getValueFromK8s` (identity_schema.go): fixed key table translating a
mapping field key into a selector label and the pod attribute value.
Unknown keys return the zero named returns and an error. -/
def getValueFromK8s (fieldName : String) (pod : Pod) : String × String × Option String :=
  if fieldName = "sa" then (serviceAccountLabel, pod.ServiceAccountName, none)
  else if fieldName = "ns" then (namespaceLabel, pod.Namespace, none)
  else if fieldName = "pod-name" then (podNameLabel, pod.Name, none)
  else if fieldName = "pod-uid" then (podUIDLabel, pod.UID, none)
  else ("", "", some ("Unknown field for k8s attestor: " ++ fieldName))

/-- Error produced when the mapping list is exhausted without a `"k8s"`
entry (`"Cannot find a mapping match..."` in the source; the named `err`
interpolated there is still nil at that point). -/
def errNoMappingMatch : String := "Cannot find a mapping match"

/-- Loop body of `getValueFromWorkloadAttestor`: mappings are scanned in
order; the first one with `Type == "k8s"` returns immediately (with the
error, if any, of `getValueFromK8s`); the `"xxx"` case and the default
case only log and continue, leaving the named returns untouched. -/
def scanMappings (pod : Pod) : List Mapping → String × String × Option String
  | [] => ("", "", some errNoMappingMatch)
  | m :: rest =>
    if m.typ = "k8s" then getValueFromK8s m.field pod
    else scanMappings pod rest

/-- `(att *AttestorSource) getValueFromWorkloadAttestor(pod)`. -/
def AttestorSource.getValueFromWorkloadAttestor (att : AttestorSource) (pod : Pod) :
    String × String × Option String :=
  scanMappings pod att.Mappings

/-- `(att *AttestorSource) GetValue(pod)`: `nodeAttestor` is an
unimplemented path returning a placeholder value together with an error;
`workloadAttestor` delegates to the mapping scan (dropping the selector
label); any other group is an error with the zero value. -/
def AttestorSource.GetValue (att : AttestorSource) (pod : Pod) : String × Option String :=
  if att.Group = nodeAttestor then
    ("value-from-node-Attestor", some "Function for nodeAttestor not implemented")
  else if att.Group = workloadAttestor then
    let r := att.getValueFromWorkloadAttestor pod
    (r.2.1, r.2.2)
  else ("", some ("Unknown attestor name: " ++ att.Group))

/-- Error returned by `ConfigMapSource.GetValue` when no usable config
map is found. -/
def errNoConfigMap (src : ConfigMapSource) : String :=
  "No configMap with Name=" ++ src.Name ++ " in namespace " ++ src.Namespace ++ " found "

/-- Loop of `ConfigMapSource.GetValue` over the listed config maps: a map
with the configured name whose data is present and holds a non-empty
value at the field key returns that value; every other map (wrong name,
nil data, empty or missing field value) is skipped and the scan goes on. -/
def scanConfigMaps (src : ConfigMapSource) : List ConfigMap → Option String
  | [] => none
  | item :: rest =>
    if item.Name = src.Name then
      match item.Data with
      | none => scanConfigMaps src rest
      | some data =>
        let val := lookupData data src.Field
        if val ≠ "" then some val else scanConfigMaps src rest
    else scanConfigMaps src rest

/-- `(cms *ConfigMapSource) GetValue(ctx, cl, source)`: lists the config
maps of `source.Namespace`; a failing list call only logs and the scan
proceeds over the empty list, ending in the not-found error. (The Go
receiver is ignored; the source is taken from the parameter, and the two
always coincide at the call site.) -/
def ConfigMapSource.GetValue (cl : CMClient) (src : ConfigMapSource) : String × Option String :=
  let items := match cl.listNS src.Namespace with
    | Except.error _ => []
    | Except.ok l => l
  match scanConfigMaps src items with
  | some v => (v, none)
  | none => ("", some (errNoConfigMap src))

/-- `(is *IdentitySchema) getFieldValue(ctx, pod, cl, field)`: attestor
source first, then config-map source, else an unknown-source error; on a
source error the field's name is returned together with the error. -/
def getFieldValue (cl : CMClient) (pod : Pod) (f : Field) : String × Option String :=
  match f.AttestorSource with
  | some att =>
    let r := att.GetValue pod
    match r.2 with
    | some e => (f.Name, some e)
    | none => (r.1, none)
  | none =>
    match f.ConfigMapSource with
    | some cms =>
      let r := ConfigMapSource.GetValue cl cms
      match r.2 with
      | some e => (f.Name, some e)
      | none => (r.1, none)
    | none => (f.Name, some ("Unknown or missing source for field: " ++ f.Name))

/-- Value contributed by one field inside the `getSVID` loop: a non-empty
literal `Value` wins outright; otherwise the resolved source value, or
the field's name when resolution errored. -/
def segValue (cl : CMClient) (pod : Pod) (f : Field) : String :=
  if f.Value ≠ "" then f.Value
  else
    let r := getFieldValue cl pod f
    match r.2 with
    | some _ => f.Name
    | none => r.1

/-- Loop of `getSVID`: fields with an empty name are skipped entirely;
every other field appends `"/" + val` to the identity string. -/
def svidSegments (cl : CMClient) (pod : Pod) : List Field → String
  | [] => ""
  | f :: rest =>
    if f.Name = "" then svidSegments cl pod rest
    else "/" ++ segValue cl pod f ++ svidSegments cl pod rest

/-- The field list as iterated by Go (`range` over a nil slice is the
empty iteration). -/
def IdentitySchema.fieldsList (is : IdentitySchema) : List Field :=
  is.Fields.getD []

/-- `(is *IdentitySchema) getSVID(ctx, pod, cl)`. -/
def IdentitySchema.getSVID (is : IdentitySchema) (cl : CMClient) (pod : Pod) : String :=
  svidSegments cl pod is.fieldsList

/-- Per-field step of the `getSelector` loop: only fields with a
`workloadAttestor` attestor source are selector relevant; mapping-scan
errors and empty selector labels are skipped; a recognized label sets
the corresponding selector key, an unrecognized one only logs. -/
def applySelectorField (pod : Pod) (sel : Selector) (f : Field) : Selector :=
  match f.AttestorSource with
  | none => sel
  | some att =>
    if att.Group = workloadAttestor then
      let r := att.getValueFromWorkloadAttestor pod
      match r.2.2 with
      | some _ => sel
      | none =>
        let selName := r.1
        let selVal := r.2.1
        if selName = "" then sel
        else if selName = namespaceLabel then
          ⟨selVal, sel.PodUid, sel.PodName, sel.ServiceAccount, sel.NodeName⟩
        else if selName = podUIDLabel then
          ⟨sel.Namespace, selVal, sel.PodName, sel.ServiceAccount, sel.NodeName⟩
        else if selName = podNameLabel then
          ⟨sel.Namespace, sel.PodUid, selVal, sel.ServiceAccount, sel.NodeName⟩
        else if selName = serviceAccountLabel then
          ⟨sel.Namespace, sel.PodUid, sel.PodName, selVal, sel.NodeName⟩
        else sel
    else sel

/-- `(is *IdentitySchema) getSelector(pod)`: a nil field list yields the
default selector carrying the pod's UID, namespace and node name; a
non-nil list starts from a selector with only the node name and folds
the selector-relevant fields over it in order. -/
def IdentitySchema.getSelector (is : IdentitySchema) (pod : Pod) : Selector :=
  match is.Fields with
  | none => ⟨pod.Namespace, pod.UID, "", "", pod.NodeName⟩
  | some fs => fs.foldl (applySelectorField pod) ⟨"", "", "", "", pod.NodeName⟩

/-- The string `s` ends in the path separator. -/
def endsWithSep (s : String) : Prop :=
  s.data.getLast? = some '/'

instance (s : String) : Decidable (endsWithSep s) := by
  unfold endsWithSep; infer_instance

/-- Modelled from the spec: `makeID` (pod_controller.go, absent from the
source slice) renders the final SPIFFE-style identifier by applying the
trust domain prefix to an identity path. -/
def makeID (trustDomain : String) (path : String) : String :=
  "spiffe://" ++ trustDomain ++ "/" ++ path

/-- Modelled from the spec: `podSpiffeID` (pod_controller.go, absent from
the source slice) composes the trust domain with the schema-resolved
identity string (which already starts with the separator). -/
def podSpiffeID (trustDomain : String) (cl : CMClient) (pod : Pod)
    (is : IdentitySchema) : String :=
  "spiffe://" ++ trustDomain ++ is.getSVID cl pod

/-- Modelled from the spec: the template-mode format check (pod_controller.go,
absent from the source slice) rejects a rendered identity ending in the
path separator with the error "invalid SVID, ends with /". -/
def checkIdentityFormat (s : String) : Except String String :=
  if s.data.getLast? = some '/' then Except.error "invalid SVID, ends with /"
  else Except.ok s

end Spire

namespace Spire

/-- The identity string is built segment by segment, so the loop splits
over list append. -/
theorem svidSegments_append (cl : CMClient) (pod : Pod) (l1 l2 : List Field) :
    svidSegments cl pod (l1 ++ l2) = svidSegments cl pod l1 ++ svidSegments cl pod l2 := by
  induction l1 with
  | nil => simp [svidSegments, String.empty_append]
  | cons f rest ih =>
    by_cases h : f.Name = ""
    · simp [svidSegments, h, ih]
    · simp [svidSegments, h, ih, String.append_assoc]

/-- A selector fold step leaves the selector unchanged on a field without
an attestor source. -/
theorem applySelectorField_noAtt (pod : Pod) (sel : Selector) (f : Field)
    (h : f.AttestorSource = none) : applySelectorField pod sel f = sel := by
  simp [applySelectorField, h]

/-- Folding the selector step over fields without attestor sources is the
identity. -/
theorem foldl_applySelectorField_noAtt (pod : Pod) (fs : List Field)
    (H : ∀ f ∈ fs, f.AttestorSource = none) (sel : Selector) :
    fs.foldl (applySelectorField pod) sel = sel := by
  induction fs generalizing sel with
  | nil => rfl
  | cons f rest ih =>
    rw [List.foldl_cons, applySelectorField_noAtt pod sel f (H f (List.mem_cons_self f rest))]
    exact ih (fun g hg => H g (List.mem_cons_of_mem f hg)) sel

/-- Every segment of the identity string is prefixed by the separator, so
when every contributing value is non-empty and separator-free the whole
string cannot end in the separator. -/
theorem svidSegments_not_endsWithSep (cl : CMClient) (pod : Pod) (fs : List Field)
    (H : ∀ f ∈ fs, f.Name ≠ "" →
      segValue cl pod f ≠ "" ∧ ¬ endsWithSep (segValue cl pod f)) :
    ¬ endsWithSep (svidSegments cl pod fs) := by
  induction fs with
  | nil => simp [svidSegments, endsWithSep]
  | cons f rest ih =>
    have Hrest : ∀ g ∈ rest, g.Name ≠ "" →
        segValue cl pod g ≠ "" ∧ ¬ endsWithSep (segValue cl pod g) :=
      fun g hg => H g (List.mem_cons_of_mem f hg)
    by_cases h : f.Name = ""
    · simpa [svidSegments, h] using ih Hrest
    · have hf := H f (List.mem_cons_self f rest) h
      have hlast : ∃ c, (segValue cl pod f).data.getLast? = some c ∧ c ≠ '/' := by
        cases hv : (segValue cl pod f).data.getLast? with
        | none =>
          exfalso
          apply hf.1
          have hdata : (segValue cl pod f).data = [] := List.getLast?_eq_none_iff.mp hv
          cases hseg : segValue cl pod f with
          | mk d => rw [hseg] at hdata; simp at hdata; simp [hdata]
        | some c =>
          refine ⟨c, rfl, ?_⟩
          intro hc
          exact hf.2 (by simpa [endsWithSep, hv] using congrArg some hc)
      obtain ⟨c, hc, hcne⟩ := hlast
      unfold endsWithSep
      simp only [svidSegments, if_neg h]
      rw [String.data_append, String.data_append, List.getLast?_append,
        List.getLast?_append, hc]
      cases hr : (svidSegments cl pod rest).data.getLast? with
      | none =>
        simp only [Option.or]
        exact fun hcontra => hcne (Option.some.inj hcontra)
      | some x =>
        have hxne : ¬ (svidSegments cl pod rest).data.getLast? = some '/' := ih Hrest
        rw [hr] at hxne
        simp only [Option.or]
        intro hcontra
        exact hxne (by rw [hcontra])

end Spire

namespace Spire

/-- Value a config map holds at a key: `""` when the data map is nil or
the key is absent (Go map semantics). -/
def cmFieldValue (cm : ConfigMap) (key : String) : String :=
  match cm.Data with
  | none => ""
  | some d => lookupData d key

/-- Follows the spec wording (refinement reference): scan the listed
key/value resources for one with matching name and a non-empty value at
the configured field key, returning that value. -/
def specConfigMapLookup (src : ConfigMapSource) (items : List ConfigMap) : Option String :=
  (items.find? (fun cm => cm.Name == src.Name && cmFieldValue cm src.Field != "")).map
    (fun cm => cmFieldValue cm src.Field)

/-- The source's config-map scan computes exactly the first-match lookup
described by the spec. -/
theorem scanConfigMaps_eq_spec (src : ConfigMapSource) (items : List ConfigMap) :
    scanConfigMaps src items = specConfigMapLookup src items := by
  induction items with
  | nil => rfl
  | cons item rest ih =>
    by_cases h1 : item.Name = src.Name
    · cases hd : item.Data with
      | none =>
        simp [scanConfigMaps, specConfigMapLookup, List.find?_cons, h1, hd, cmFieldValue,
          ih]
      | some d =>
        by_cases h2 : lookupData d src.Field = ""
        · simp [scanConfigMaps, specConfigMapLookup, List.find?_cons, h1, hd, h2,
            cmFieldValue, ih]
        · simp [scanConfigMaps, specConfigMapLookup, List.find?_cons, h1, hd, h2,
            cmFieldValue]
    · simp [scanConfigMaps, specConfigMapLookup, List.find?_cons, h1, ih]

/-- The selector carries no key other than the node name. -/
def selectorOnlyNodeName (s : Selector) : Prop :=
  s.Namespace = "" ∧ s.PodUid = "" ∧ s.PodName = "" ∧ s.ServiceAccount = ""

instance (s : Selector) : Decidable (selectorOnlyNodeName s) := by
  unfold selectorOnlyNodeName; infer_instance

end Spire

namespace Spire

/-- Claim C1 counterexample: for a pod with non-empty namespace and UID
and an absent (nil) schema field list, `getSelector` returns the default
selector, which also populates `Namespace` and `PodUid` — not only the
node name as the claim states. -/
theorem C1_counterexample_nil_field_list :
    ¬ selectorOnlyNodeName ((IdentitySchema.mk "1" none).getSelector
      ⟨"test-pod", "default", "123", "default", "test-node"⟩) := by
  decide

/-- Claim C1 (amended): with a present (possibly empty) field list all of
whose fields lack an attestor source (literal- or config-map-sourced, or
sourceless), `getSelector` populates only `NodeName`, from the pod's node
name; with an absent (nil) field list the default selector additionally
carries the pod's namespace and UID. -/
theorem C1_selector_only_nodeName_amended (pod : Pod) (v : String) (fs : List Field)
    (H : ∀ f ∈ fs, f.AttestorSource = none) :
    (IdentitySchema.mk v (some fs)).getSelector pod = ⟨"", "", "", "", pod.NodeName⟩ ∧
    (IdentitySchema.mk v none).getSelector pod
      = ⟨pod.Namespace, pod.UID, "", "", pod.NodeName⟩ := by
  constructor
  · exact foldl_applySelectorField_noAtt pod fs H _
  · rfl

/-- Witness for C1 (amended): a two-field schema (one literal field, one
config-map field) on a concrete pod. -/
theorem C1_selector_only_nodeName_amended_witness :
    (∀ f ∈ [Field.mk "cluster" "minikube" none none,
            Field.mk "region" "" none (some ⟨"cluster-info", "kube-system", "cluster-region"⟩)],
       f.AttestorSource = none) ∧
    ((IdentitySchema.mk "1" (some [Field.mk "cluster" "minikube" none none,
        Field.mk "region" "" none (some ⟨"cluster-info", "kube-system", "cluster-region"⟩)])).getSelector
        ⟨"p", "default", "123", "default", "node-1"⟩ = ⟨"", "", "", "", "node-1"⟩ ∧
      (IdentitySchema.mk "1" none).getSelector ⟨"p", "default", "123", "default", "node-1"⟩
        = ⟨"default", "123", "", "", "node-1"⟩) :=
  ⟨by decide,
   C1_selector_only_nodeName_amended ⟨"p", "default", "123", "default", "node-1"⟩ "1"
     [Field.mk "cluster" "minikube" none none,
      Field.mk "region" "" none (some ⟨"cluster-info", "kube-system", "cluster-region"⟩)]
     (by decide)⟩

/-- Claim C2 counterexample: `getSVID` performs no trailing-separator
check; on a pod whose service account name is empty, a schema with one
`sa`-mapped workload-attestor field renders the identity `"/"`, which
ends in the path separator. -/
theorem C2_counterexample_trailing_separator :
    (IdentitySchema.mk "1" (some [Field.mk "sa" ""
        (some ⟨"", "workloadAttestor", [Mapping.mk "k8s" "sa"]⟩) none])).getSVID
      ⟨[], false⟩ ⟨"p", "default", "123", "", "node"⟩ = "/" ∧
    endsWithSep "/" := by
  constructor
  · decide
  · decide

/-- Claim C2 (amended): the schema-rendered identity never ends in the
path separator provided every contributing field's resolved value is
non-empty and does not itself end in the separator (a successfully
resolved empty pod attribute breaks this, as the counterexample shows);
in template mode — modelled from the spec, pod_controller.go being
outside the source slice — a rendered result ending in the separator is
rejected with the format error "invalid SVID, ends with /". -/
theorem C2_no_trailing_separator_amended (cl : CMClient) (pod : Pod)
    (is : IdentitySchema) (s : String)
    (H : ∀ f ∈ is.fieldsList, f.Name ≠ "" →
      segValue cl pod f ≠ "" ∧ ¬ endsWithSep (segValue cl pod f))
    (hs : endsWithSep s) :
    ¬ endsWithSep (is.getSVID cl pod) ∧
      checkIdentityFormat s = Except.error "invalid SVID, ends with /" := by
  constructor
  · exact svidSegments_not_endsWithSep cl pod _ H
  · unfold checkIdentityFormat
    unfold endsWithSep at hs
    simp [hs]

/-- Witness for C2 (amended): a one-literal-field schema on a concrete
pod, and the string "x/" for the template-mode check. -/
theorem C2_no_trailing_separator_amended_witness :
    (∀ f ∈ (IdentitySchema.mk "1" (some [Field.mk "a" "x" none none])).fieldsList,
      f.Name ≠ "" →
        segValue ⟨[], false⟩ ⟨"p", "ns", "1", "sa", "n"⟩ f ≠ "" ∧
        ¬ endsWithSep (segValue ⟨[], false⟩ ⟨"p", "ns", "1", "sa", "n"⟩ f)) ∧
    endsWithSep "x/" ∧
    (¬ endsWithSep ((IdentitySchema.mk "1" (some [Field.mk "a" "x" none none])).getSVID
        ⟨[], false⟩ ⟨"p", "ns", "1", "sa", "n"⟩) ∧
      checkIdentityFormat "x/" = Except.error "invalid SVID, ends with /") :=
  ⟨by decide, by decide,
   C2_no_trailing_separator_amended ⟨[], false⟩ ⟨"p", "ns", "1", "sa", "n"⟩
     (IdentitySchema.mk "1" (some [Field.mk "a" "x" none none])) "x/" (by decide) (by decide)⟩

end Spire

namespace Spire

/-- Claim C3: a field with a non-empty name and a non-empty literal value
contributes exactly that literal as its identity segment, wherever it
sits in the field list and for every configured attestor or config-map
source (both are universally quantified and never consulted). -/
theorem C3_literal_value_wins (cl : CMClient) (pod : Pod) (v name value : String)
    (att : Option AttestorSource) (cm : Option ConfigMapSource) (pre post : List Field)
    (hn : name ≠ "") (hv : value ≠ "") :
    (IdentitySchema.mk v (some (pre ++ Field.mk name value att cm :: post))).getSVID cl pod
      = svidSegments cl pod pre ++ ("/" ++ value ++ svidSegments cl pod post) := by
  unfold IdentitySchema.getSVID IdentitySchema.fieldsList
  rw [Option.getD_some, svidSegments_append]
  congr 1
  simp [svidSegments, segValue, hn, hv]

/-- Witness for C3: the literal field "cluster"/"minikube" carrying an
attestor source that would resolve differently, between two other
fields. -/
theorem C3_literal_value_wins_witness :
    ("cluster" : String) ≠ "" ∧ ("minikube" : String) ≠ "" ∧
    (IdentitySchema.mk "1" (some ([Field.mk "a" "x" none none] ++
        Field.mk "cluster" "minikube"
          (some ⟨"", "workloadAttestor", [Mapping.mk "k8s" "ns"]⟩)
          (some ⟨"cluster-info", "kube-system", "cluster-region"⟩) ::
        [Field.mk "b" "y" none none]))).getSVID ⟨[], false⟩ ⟨"p", "ns1", "1", "sa1", "n"⟩
      = svidSegments ⟨[], false⟩ ⟨"p", "ns1", "1", "sa1", "n"⟩ [Field.mk "a" "x" none none]
        ++ ("/" ++ "minikube" ++
          svidSegments ⟨[], false⟩ ⟨"p", "ns1", "1", "sa1", "n"⟩ [Field.mk "b" "y" none none]) :=
  ⟨by decide, by decide,
   C3_literal_value_wins ⟨[], false⟩ ⟨"p", "ns1", "1", "sa1", "n"⟩ "1" "cluster" "minikube"
     (some ⟨"", "workloadAttestor", [Mapping.mk "k8s" "ns"]⟩)
     (some ⟨"cluster-info", "kube-system", "cluster-region"⟩)
     [Field.mk "a" "x" none none] [Field.mk "b" "y" none none] (by decide) (by decide)⟩

/-- Claim C4: a field with a non-empty name, no literal value, and a
failing source resolution contributes its own name as the segment, and
the remaining fields are still processed; `getSVID` is total, so a
failing field never aborts identity construction. -/
theorem C4_field_error_uses_name (cl : CMClient) (pod : Pod) (v : String)
    (pre post : List Field) (f : Field)
    (hn : f.Name ≠ "") (hv : f.Value = "")
    (he : (getFieldValue cl pod f).2.isSome = true) :
    (IdentitySchema.mk v (some (pre ++ f :: post))).getSVID cl pod
      = svidSegments cl pod pre ++ ("/" ++ f.Name ++ svidSegments cl pod post) := by
  obtain ⟨e, he'⟩ := Option.isSome_iff_exists.mp he
  unfold IdentitySchema.getSVID IdentitySchema.fieldsList
  rw [Option.getD_some, svidSegments_append]
  congr 1
  simp [svidSegments, segValue, hn, hv, he']

/-- Witness for C4: a sourceless field (its resolution yields the
unknown-source error) between two literal fields. -/
theorem C4_field_error_uses_name_witness :
    ("mid" : String) ≠ "" ∧ ("" : String) = "" ∧
    ((getFieldValue ⟨[], false⟩ ⟨"p", "ns1", "1", "sa1", "n"⟩
        (Field.mk "mid" "" none none)).2.isSome = true) ∧
    (IdentitySchema.mk "1" (some ([Field.mk "a" "x" none none] ++
        Field.mk "mid" "" none none :: [Field.mk "b" "y" none none]))).getSVID
        ⟨[], false⟩ ⟨"p", "ns1", "1", "sa1", "n"⟩
      = svidSegments ⟨[], false⟩ ⟨"p", "ns1", "1", "sa1", "n"⟩ [Field.mk "a" "x" none none]
        ++ ("/" ++ "mid" ++
          svidSegments ⟨[], false⟩ ⟨"p", "ns1", "1", "sa1", "n"⟩ [Field.mk "b" "y" none none]) :=
  ⟨by decide, rfl, by decide,
   C4_field_error_uses_name ⟨[], false⟩ ⟨"p", "ns1", "1", "sa1", "n"⟩ "1"
     [Field.mk "a" "x" none none] [Field.mk "b" "y" none none]
     (Field.mk "mid" "" none none) (by decide) rfl (by decide)⟩

/-- Claim C5: a field whose name is empty is dropped entirely — the
identity of the schema with that field equals the identity of the schema
without it, so it contributes no segment and construction continues. -/
theorem C5_empty_name_dropped (cl : CMClient) (pod : Pod) (v : String)
    (pre post : List Field) (f : Field) (h : f.Name = "") :
    (IdentitySchema.mk v (some (pre ++ f :: post))).getSVID cl pod
      = (IdentitySchema.mk v (some (pre ++ post))).getSVID cl pod := by
  unfold IdentitySchema.getSVID IdentitySchema.fieldsList
  rw [Option.getD_some, Option.getD_some, svidSegments_append, svidSegments_append]
  congr 1
  simp [svidSegments, h]

/-- Witness for C5: a nameless field with a literal value between two
literal fields contributes nothing. -/
theorem C5_empty_name_dropped_witness :
    (Field.mk "" "ghost" none none).Name = "" ∧
    (IdentitySchema.mk "1" (some ([Field.mk "a" "x" none none] ++
        Field.mk "" "ghost" none none :: [Field.mk "b" "y" none none]))).getSVID
        ⟨[], false⟩ ⟨"p", "ns1", "1", "sa1", "n"⟩
      = (IdentitySchema.mk "1" (some ([Field.mk "a" "x" none none] ++
          [Field.mk "b" "y" none none]))).getSVID ⟨[], false⟩ ⟨"p", "ns1", "1", "sa1", "n"⟩ :=
  ⟨rfl,
   C5_empty_name_dropped ⟨[], false⟩ ⟨"p", "ns1", "1", "sa1", "n"⟩ "1"
     [Field.mk "a" "x" none none] [Field.mk "b" "y" none none]
     (Field.mk "" "ghost" none none) rfl⟩

end Spire

namespace Spire

/-- The pod of the concrete identity-schema test scenario. -/
def testPod : Pod := ⟨"test-id-schema", "default", "789", "default", "test-node"⟩

/-- The cluster store of the concrete scenario: the config map
`cluster-info` in `kube-system` holding `cluster-region: eu-de`. -/
def testClient : CMClient :=
  ⟨[⟨"cluster-info", "kube-system", some [("cluster-region", "eu-de")]⟩], false⟩

/-- The five-field schema of the concrete scenario. -/
def testSchema : IdentitySchema :=
  ⟨"1", some [
    ⟨"cluster", "minikube", none, none⟩,
    ⟨"region", "", none, some ⟨"cluster-info", "kube-system", "cluster-region"⟩⟩,
    ⟨"ns", "", some ⟨"", "workloadAttestor", [⟨"k8s", "ns"⟩]⟩, none⟩,
    ⟨"sa", "", some ⟨"", "workloadAttestor", [⟨"k8s", "sa"⟩]⟩, none⟩,
    ⟨"pod", "", some ⟨"", "workloadAttestor", [⟨"k8s", "pod-name"⟩]⟩, none⟩]⟩

/-- Claim C6: on the concrete five-field schema, config map and pod, the
schema renders the identity path minikube/eu-de/default/default/
test-id-schema (each segment prefixed by the separator), the final
SPIFFE-style identifier equals the trust-domain-prefixed form of that
path, and the selector carries exactly namespace, service account, pod
name and node name. -/
theorem C6_concrete_scenario :
    testSchema.getSVID testClient testPod
      = "/minikube/eu-de/default/default/test-id-schema" ∧
    podSpiffeID "example.org" testClient testPod testSchema
      = makeID "example.org" "minikube/eu-de/default/default/test-id-schema" ∧
    testSchema.getSelector testPod
      = ⟨"default", "", "test-id-schema", "default", "test-node"⟩ := by
  refine ⟨by decide, by decide, by decide⟩

/-- Claim C7: the workload-attestor mapping scan proceeds in declared
order — a mapping of unknown type is skipped without effect, the first
`"k8s"` mapping is consumed via `getValueFromK8s`, the key table maps
sa/ns/pod-name/pod-uid to the corresponding selector label and pod
attribute, an unknown key is a resolution error, and exhausting the list
is a resolution error. -/
theorem C7_mapping_scan_order (n g fld : String) (m1 m2 : Mapping)
    (rest : List Mapping) (pod : Pod)
    (h1 : m1.typ ≠ "k8s") (h2 : m2.typ = "k8s")
    (hf1 : fld ≠ "sa") (hf2 : fld ≠ "ns") (hf3 : fld ≠ "pod-name") (hf4 : fld ≠ "pod-uid") :
    (AttestorSource.mk n g []).getValueFromWorkloadAttestor pod
      = ("", "", some errNoMappingMatch) ∧
    (AttestorSource.mk n g (m1 :: rest)).getValueFromWorkloadAttestor pod
      = (AttestorSource.mk n g rest).getValueFromWorkloadAttestor pod ∧
    (AttestorSource.mk n g (m2 :: rest)).getValueFromWorkloadAttestor pod
      = getValueFromK8s m2.field pod ∧
    getValueFromK8s "sa" pod = (serviceAccountLabel, pod.ServiceAccountName, none) ∧
    getValueFromK8s "ns" pod = (namespaceLabel, pod.Namespace, none) ∧
    getValueFromK8s "pod-name" pod = (podNameLabel, pod.Name, none) ∧
    getValueFromK8s "pod-uid" pod = (podUIDLabel, pod.UID, none) ∧
    getValueFromK8s fld pod = ("", "", some ("Unknown field for k8s attestor: " ++ fld)) := by
  refine ⟨rfl, ?_, ?_, rfl, ?_, ?_, ?_, ?_⟩
  · simp [AttestorSource.getValueFromWorkloadAttestor, scanMappings, h1]
  · simp [AttestorSource.getValueFromWorkloadAttestor, scanMappings, h2]
  · rfl
  · rfl
  · rfl
  · simp [getValueFromK8s, hf1, hf2, hf3, hf4]

/-- Witness for C7: an `"xxx"`-typed mapping is skipped, a `"k8s"/"sa"`
mapping is consumed, and the unknown key "zz" errors, on a concrete
pod. -/
theorem C7_mapping_scan_order_witness :
    (Mapping.mk "xxx" "sa").typ ≠ "k8s" ∧ (Mapping.mk "k8s" "sa").typ = "k8s" ∧
    ("zz" : String) ≠ "sa" ∧ ("zz" : String) ≠ "ns" ∧
    ("zz" : String) ≠ "pod-name" ∧ ("zz" : String) ≠ "pod-uid" ∧
    ((AttestorSource.mk "a" "workloadAttestor" []).getValueFromWorkloadAttestor
        ⟨"p", "ns1", "1", "sa1", "n"⟩ = ("", "", some errNoMappingMatch) ∧
      (AttestorSource.mk "a" "workloadAttestor"
          (Mapping.mk "xxx" "sa" :: [Mapping.mk "k8s" "ns"])).getValueFromWorkloadAttestor
          ⟨"p", "ns1", "1", "sa1", "n"⟩
        = (AttestorSource.mk "a" "workloadAttestor"
            [Mapping.mk "k8s" "ns"]).getValueFromWorkloadAttestor
            ⟨"p", "ns1", "1", "sa1", "n"⟩ ∧
      (AttestorSource.mk "a" "workloadAttestor"
          (Mapping.mk "k8s" "sa" :: [Mapping.mk "k8s" "ns"])).getValueFromWorkloadAttestor
          ⟨"p", "ns1", "1", "sa1", "n"⟩
        = getValueFromK8s (Mapping.mk "k8s" "sa").field ⟨"p", "ns1", "1", "sa1", "n"⟩ ∧
      getValueFromK8s "sa" ⟨"p", "ns1", "1", "sa1", "n"⟩
        = (serviceAccountLabel, "sa1", none) ∧
      getValueFromK8s "ns" ⟨"p", "ns1", "1", "sa1", "n"⟩ = (namespaceLabel, "ns1", none) ∧
      getValueFromK8s "pod-name" ⟨"p", "ns1", "1", "sa1", "n"⟩ = (podNameLabel, "p", none) ∧
      getValueFromK8s "pod-uid" ⟨"p", "ns1", "1", "sa1", "n"⟩ = (podUIDLabel, "1", none) ∧
      getValueFromK8s "zz" ⟨"p", "ns1", "1", "sa1", "n"⟩
        = ("", "", some ("Unknown field for k8s attestor: " ++ "zz"))) :=
  ⟨by decide, by decide, by decide, by decide, by decide, by decide,
   C7_mapping_scan_order "a" "workloadAttestor" "zz" (Mapping.mk "xxx" "sa")
     (Mapping.mk "k8s" "sa") [Mapping.mk "k8s" "ns"] ⟨"p", "ns1", "1", "sa1", "n"⟩
     (by decide) (by decide) (by decide) (by decide) (by decide) (by decide)⟩

/-- Claim C8: an attestor source whose group is `nodeAttestor` always
resolves to an error carrying the placeholder value
"value-from-node-Attestor", and a field backed by it (non-empty name, no
literal value) degrades to its field name in the rendered identity. -/
theorem C8_nodeAttestor_unimplemented (att : AttestorSource) (pod : Pod)
    (cl : CMClient) (v name : String) (cm : Option ConfigMapSource)
    (pre post : List Field)
    (hg : att.Group = "nodeAttestor") (hn : name ≠ "") :
    att.GetValue pod
      = ("value-from-node-Attestor", some "Function for nodeAttestor not implemented") ∧
    (IdentitySchema.mk v (some (pre ++ Field.mk name "" (some att) cm :: post))).getSVID cl pod
      = svidSegments cl pod pre ++ ("/" ++ name ++ svidSegments cl pod post) := by
  have hget : att.GetValue pod
      = ("value-from-node-Attestor", some "Function for nodeAttestor not implemented") := by
    simp [AttestorSource.GetValue, hg, nodeAttestor]
  refine ⟨hget, ?_⟩
  unfold IdentitySchema.getSVID IdentitySchema.fieldsList
  rw [Option.getD_some, svidSegments_append]
  congr 1
  simp [svidSegments, segValue, getFieldValue, hget, hn]

/-- Witness for C8: a node-attestor field between two literal fields on a
concrete pod. -/
theorem C8_nodeAttestor_unimplemented_witness :
    (AttestorSource.mk "na" "nodeAttestor" [Mapping.mk "k8s" "sa"]).Group
      = "nodeAttestor" ∧ ("nd" : String) ≠ "" ∧
    ((AttestorSource.mk "na" "nodeAttestor" [Mapping.mk "k8s" "sa"]).GetValue
        ⟨"p", "ns1", "1", "sa1", "n"⟩
      = ("value-from-node-Attestor", some "Function for nodeAttestor not implemented") ∧
    (IdentitySchema.mk "1" (some ([Field.mk "a" "x" none none] ++
        Field.mk "nd" "" (some (AttestorSource.mk "na" "nodeAttestor" [Mapping.mk "k8s" "sa"])) none ::
        [Field.mk "b" "y" none none]))).getSVID ⟨[], false⟩ ⟨"p", "ns1", "1", "sa1", "n"⟩
      = svidSegments ⟨[], false⟩ ⟨"p", "ns1", "1", "sa1", "n"⟩ [Field.mk "a" "x" none none]
        ++ ("/" ++ "nd" ++
          svidSegments ⟨[], false⟩ ⟨"p", "ns1", "1", "sa1", "n"⟩ [Field.mk "b" "y" none none])) :=
  ⟨rfl, by decide,
   C8_nodeAttestor_unimplemented (AttestorSource.mk "na" "nodeAttestor" [Mapping.mk "k8s" "sa"])
     ⟨"p", "ns1", "1", "sa1", "n"⟩ ⟨[], false⟩ "1" "nd" none
     [Field.mk "a" "x" none none] [Field.mk "b" "y" none none] rfl (by decide)⟩

/-- Claim C9: config-map resolution scans the maps listed for the
source's namespace for the first one with matching name and a non-empty
value at the field key (`specConfigMapLookup` restates the spec's
wording of that search); a failing list call, like an unsuccessful scan,
yields the not-found error rather than a fatal store error. -/
theorem C9_configmap_lookup (cms : List ConfigMap) (src : ConfigMapSource) :
    ConfigMapSource.GetValue ⟨cms, true⟩ src = ("", some (errNoConfigMap src)) ∧
    ConfigMapSource.GetValue ⟨cms, false⟩ src =
      (match specConfigMapLookup src (cms.filter (fun cm => cm.Namespace == src.Namespace)) with
       | some val => (val, none)
       | none => ("", some (errNoConfigMap src))) := by
  constructor
  · rfl
  · unfold ConfigMapSource.GetValue CMClient.listNS
    simp only [Bool.false_eq_true, if_false]
    rw [scanConfigMaps_eq_spec]

/-- Claim C10: when the first `"k8s"`-typed mapping carries an unknown
field key, the scan returns the unknown-field error immediately; the
result does not depend on the remaining mappings (quantified but absent
from the right-hand side), so a later valid mapping is never consulted. -/
theorem C10_first_k8s_mapping_is_final (n g fld : String) (rest : List Mapping) (pod : Pod)
    (hf1 : fld ≠ "sa") (hf2 : fld ≠ "ns") (hf3 : fld ≠ "pod-name") (hf4 : fld ≠ "pod-uid") :
    (AttestorSource.mk n g (Mapping.mk "k8s" fld :: rest)).getValueFromWorkloadAttestor pod
      = ("", "", some ("Unknown field for k8s attestor: " ++ fld)) := by
  simp [AttestorSource.getValueFromWorkloadAttestor, scanMappings, getValueFromK8s,
    hf1, hf2, hf3, hf4]

/-- Witness for C10: the unknown key "zz" errors immediately even though
the next mapping is a valid `"k8s"/"sa"` one. -/
theorem C10_first_k8s_mapping_is_final_witness :
    ("zz" : String) ≠ "sa" ∧ ("zz" : String) ≠ "ns" ∧
    ("zz" : String) ≠ "pod-name" ∧ ("zz" : String) ≠ "pod-uid" ∧
    (AttestorSource.mk "a" "workloadAttestor"
        (Mapping.mk "k8s" "zz" :: [Mapping.mk "k8s" "sa"])).getValueFromWorkloadAttestor
        ⟨"p", "ns1", "1", "sa1", "n"⟩
      = ("", "", some ("Unknown field for k8s attestor: " ++ "zz")) :=
  ⟨by decide, by decide, by decide, by decide,
   C10_first_k8s_mapping_is_final "a" "workloadAttestor" "zz" [Mapping.mk "k8s" "sa"]
     ⟨"p", "ns1", "1", "sa1", "n"⟩ (by decide) (by decide) (by decide) (by decide)⟩

end Spire
